import Mathlib

/-!
Verification of the Slack huddle detector (`slack-huddle-detector-optimized.py`).

The detector is a noisy multi-signal binary state machine: a composite scorer
turns an indicator snapshot into an integer score, a bounded history of scores
yields a smoothed trend, and an IDLE/ACTIVE state machine with debounce
counters decides session start/end.

Embedding conventions:
* Python numbers (int scores, float baseline/trend) are embedded as `ℤ` and
  `ℚ`; the literal `0.7` becomes the rational `7/10`.
* The score history `deque(maxlen=10)` is a `List ℚ`, most recent element
  last; `push` evicts the oldest element at capacity 10.
* The loop-local counters `consecutive_starts` / `consecutive_ends` of `run`
  are fields of the explicit `DetectorState`.
* Shell probes and file writes are effects; their outcomes enter the
  embedded functions as explicit arguments (`Option String` for a probe's
  stdout, `Except String Unit` for the attempted file write).
-/

namespace HuddleDetector

/-- The seven audio indicators collected by `get_audio_state` (the dict
initialised at the top of that method; every snapshot carries all seven
keys). Values are integers parsed from command output. -/
structure AudioState where
  audio_fds : ℤ
  audio_units : ℤ
  hal_plugins : ℤ
  power_assertions : ℤ
  slack_assertions : ℤ
  ioregistry_clients : ℤ
  coreaudio_connections : ℤ
  deriving Repr, DecidableEq

/-- `calculate_score`: sequential accumulation of the weighted rules, in the
source's order, returning the total score and the reason strings. -/
def calculate_score (state : AudioState) : ℤ × List String :=
  let acc : ℤ × List String := (0, [])
  -- Strong indicators
  let acc :=
    if state.power_assertions > 0 then
      (acc.1 + 25, acc.2 ++ ["Audio power: " ++ toString state.power_assertions])
    else acc
  let acc :=
    if state.slack_assertions > 0 then
      (acc.1 + 20 * min state.slack_assertions 3,
       acc.2 ++ ["Slack assertions: " ++ toString state.slack_assertions])
    else acc
  -- Medium indicators
  let acc :=
    if state.audio_units > 0 then
      (acc.1 + 15 * min state.audio_units 2,
       acc.2 ++ ["Audio units: " ++ toString state.audio_units])
    else acc
  let acc :=
    if state.hal_plugins > 0 then
      (acc.1 + 10, acc.2 ++ ["HAL plugins: " ++ toString state.hal_plugins])
    else acc
  -- Weak indicators
  let acc :=
    if state.audio_fds > 3 then
      (acc.1 + 5, acc.2 ++ ["Audio FDs: " ++ toString state.audio_fds])
    else acc
  let acc :=
    if state.ioregistry_clients > 0 then
      (acc.1 + 10, acc.2 ++ ["IO clients: " ++ toString state.ioregistry_clients])
    else acc
  let acc :=
    if state.coreaudio_connections > 0 then
      (acc.1 + 10, acc.2 ++ ["CoreAudio: " ++ toString state.coreaudio_connections])
    else acc
  acc

/-- The individual contributions of the rules of `calculate_score` that fire
on a given snapshot, one list entry per triggered rule, in rule order. -/
def score_contributions (state : AudioState) : List ℤ :=
  (if state.power_assertions > 0 then [(25 : ℤ)] else []) ++
  (if state.slack_assertions > 0 then [20 * min state.slack_assertions 3] else []) ++
  (if state.audio_units > 0 then [15 * min state.audio_units 2] else []) ++
  (if state.hal_plugins > 0 then [(10 : ℤ)] else []) ++
  (if state.audio_fds > 3 then [(5 : ℤ)] else []) ++
  (if state.ioregistry_clients > 0 then [(10 : ℤ)] else []) ++
  (if state.coreaudio_connections > 0 then [(10 : ℤ)] else [])

set_option maxHeartbeats 1000000 in
/-- Helper: the accumulated score of `calculate_score` is the sum of the
triggered contributions. -/
theorem calculate_score_eq_sum (state : AudioState) :
    (calculate_score state).1 = (score_contributions state).sum := by
  simp only [calculate_score, score_contributions]
  split_ifs <;> simp <;> ring

/-- Helper: every triggered contribution is nonnegative. -/
theorem score_contributions_nonneg (state : AudioState) :
    ∀ c ∈ score_contributions state, 0 ≤ c := by
  intro c hc
  simp only [score_contributions] at hc
  split_ifs at hc <;> simp at hc <;> omega

/-- One append to `score_history = deque(maxlen=10)`: past capacity 10 the
oldest (leftmost) element is evicted. Most recent score is last. -/
def push (h : List ℚ) (s : ℚ) : List ℚ :=
  if h.length < 10 then h ++ [s] else h.tail ++ [s]

/-- The trend computation of `detect_huddle_change` (lines 117-123): with at
least 3 samples, `recent_avg` is the mean of the last 3 scores, `older_avg`
the mean of slice `[-6:-3]` when at least 6 samples exist and otherwise
`recent_avg` itself; the trend is their difference, and 0 below 3 samples. -/
def trend_of (h : List ℚ) : ℚ :=
  if 3 ≤ h.length then
    let recent_avg := (h.drop (h.length - 3)).sum / 3
    let older_avg :=
      if 6 ≤ h.length then ((h.drop (h.length - 6)).take 3).sum / 3 else recent_avg
    recent_avg - older_avg
  else 0

/-- The spec's description of the trend: mean of the last 3 minus mean of
the 3 before them when at least 6 samples exist, else 0. -/
def trend_spec (h : List ℚ) : ℚ :=
  if 6 ≤ h.length then
    (h.drop (h.length - 3)).sum / 3 - ((h.drop (h.length - 6)).take 3).sum / 3
  else 0

/-- The detector's mutable state: the `__init__` fields plus the two
loop-local debounce counters of `run`. -/
structure DetectorState where
  baseline_score : ℚ
  in_huddle : Bool
  score_history : List ℚ
  huddle_peak_score : ℚ
  consecutive_starts : ℕ
  consecutive_ends : ℕ
  deriving Repr

/-- `detect_huddle_change`: appends the current score to the history,
computes the trend, and returns `(should_start, should_end, trend)` together
with the updated history (the Python method mutates `score_history` in
place). -/
def detect_huddle_change (st : DetectorState) (current_score : ℚ) :
    Bool × Bool × ℚ × List ℚ :=
  let hist := push st.score_history current_score
  let trend := trend_of hist
  let start_threshold := max 50 (st.baseline_score + 25)
  let should_end :=
    if st.in_huddle then
      decide (current_score < st.huddle_peak_score * (7 / 10)) ||
      decide (current_score ≤ st.baseline_score + 10) ||
      (decide (trend < -10) && decide (current_score < 50))
    else false
  let should_start :=
    !st.in_huddle && decide (current_score ≥ start_threshold) && decide (trend ≥ 0)
  (should_start, should_end, trend, hist)

/-- The transition-handling block of `run` (lines 221-246): debounce
counters, confirmation at 2 consecutive signals, peak reset and baseline
re-anchor on a confirmed end. -/
def apply_transitions (st : DetectorState) (should_start should_end : Bool)
    (score : ℚ) : DetectorState :=
  if should_start then
    if st.consecutive_starts + 1 ≥ 2 then
      { st with in_huddle := true, huddle_peak_score := score,
                consecutive_starts := 0, consecutive_ends := 0 }
    else
      { st with consecutive_starts := st.consecutive_starts + 1,
                consecutive_ends := 0 }
  else if should_end then
    if st.consecutive_ends + 1 ≥ 2 then
      { st with in_huddle := false, huddle_peak_score := 0,
                consecutive_starts := 0, consecutive_ends := 0,
                baseline_score := score }
    else
      { st with consecutive_starts := 0,
                consecutive_ends := st.consecutive_ends + 1 }
  else
    { st with consecutive_starts := 0, consecutive_ends := 0 }

/-- The peak-update statement of `run` (lines 249-250): while in a huddle, a
score above the recorded peak replaces it. -/
def update_peak (st : DetectorState) (score : ℚ) : DetectorState :=
  if st.in_huddle && decide (score > st.huddle_peak_score) then
    { st with huddle_peak_score := score }
  else st

/-- One iteration of the monitoring loop of `run` for a given tick score:
`detect_huddle_change` (which pushes into the history), the transition
handling, then the peak update. -/
def run_tick (st : DetectorState) (score : ℚ) : DetectorState :=
  let r := detect_huddle_change st score
  update_peak
    (apply_transitions { st with score_history := r.2.2.2 } r.1 r.2.1 score)
    score

/-- `calibrate`: draws snapshots for `i in range(3)`, scores each, and sets
the baseline to `sum(scores) / len(scores)`. -/
def calibrate (sample_fn : ℕ → AudioState) : ℚ :=
  let scores := (List.range 3).map fun i => ((calculate_score (sample_fn i)).1 : ℚ)
  scores.sum / scores.length

/-- `run_command_safe`: the stripped stdout of the command on success, and
the empty string when the command failed in any way (the bare `except`
returns `""`). The effect's outcome is the explicit argument. -/
def run_command_safe (result : Option String) : String :=
  match result with
  | some out => out.trim
  | none => ""

/-- Python's `str.isdigit` restricted to ASCII output: true exactly on a
nonempty string of digits. -/
def str_isdigit (s : String) : Bool :=
  !s.isEmpty && s.toList.all Char.isDigit

/-- The per-indicator parse `int(output) if output.isdigit() else 0` of
`get_audio_state`. -/
def parse_count (out : String) : ℤ :=
  if str_isdigit out then ((out.toNat?.getD 0 : ℕ) : ℤ) else 0

/-- A command output the parse cannot use: empty, or not purely numeric. -/
def unusable (s : String) : Prop :=
  s = "" ∨ str_isdigit s = false

/-- The raw stdout of the seven probe commands of `get_audio_state`;
`none` means the probe raised (timeout, missing binary, ...). -/
structure ProbeOutputs where
  audio_fds : Option String
  audio_units : Option String
  hal_plugins : Option String
  power_assertions : Option String
  slack_assertions : Option String
  ioregistry_clients : Option String
  coreaudio_connections : Option String

/-- `get_audio_state`: every one of the seven keys of the initial dict is
populated from its probe's output via `run_command_safe` and the
digit-guarded parse; no key is ever skipped. -/
def get_audio_state (p : ProbeOutputs) : AudioState where
  audio_fds := parse_count (run_command_safe p.audio_fds)
  audio_units := parse_count (run_command_safe p.audio_units)
  hal_plugins := parse_count (run_command_safe p.hal_plugins)
  power_assertions := parse_count (run_command_safe p.power_assertions)
  slack_assertions := parse_count (run_command_safe p.slack_assertions)
  ioregistry_clients := parse_count (run_command_safe p.ioregistry_clients)
  coreaudio_connections := parse_count (run_command_safe p.coreaudio_connections)

/-- `write_status_file`: the whole body is a `try` whose handler is
`except Exception: pass`. The outcome of the attempted serialisation and
file write enters as an argument; the function returns what the caller
observes (an exception would be `Except.error`) together with the log lines
emitted by the handler. The handler prints nothing, so the log component is
always empty and the result always `Except.ok`. -/
def write_status_file (attempt : Except String Unit) :
    Except String Unit × List String :=
  match attempt with
  | Except.ok _ => (Except.ok (), [])
  | Except.error _ => (Except.ok (), [])

/-! ### Helper lemmas -/

/-- `update_peak` never changes the phase flag. -/
theorem update_peak_in_huddle (t : DetectorState) (s : ℚ) :
    (update_peak t s).in_huddle = t.in_huddle := by
  unfold update_peak; split_ifs <;> rfl

/-- `update_peak` never changes the debounce counters. -/
theorem update_peak_counters (t : DetectorState) (s : ℚ) :
    (update_peak t s).consecutive_starts = t.consecutive_starts ∧
    (update_peak t s).consecutive_ends = t.consecutive_ends := by
  unfold update_peak; split_ifs <;> exact ⟨rfl, rfl⟩

/-- `update_peak` never changes the baseline. -/
theorem update_peak_baseline (t : DetectorState) (s : ℚ) :
    (update_peak t s).baseline_score = t.baseline_score := by
  unfold update_peak; split_ifs <;> rfl

/-- `update_peak` is the identity outside a huddle. -/
theorem update_peak_of_idle (t : DetectorState) (s : ℚ) (h : t.in_huddle = false) :
    update_peak t s = t := by
  unfold update_peak; rw [h]; simp

/-- Re-applying `update_peak` with the same score is a no-op: one
application already leaves the peak at or above the score. -/
theorem update_peak_idem (t : DetectorState) (s : ℚ) :
    update_peak (update_peak t s) s = update_peak t s := by
  unfold update_peak
  split_ifs <;> simp_all

/-- While in a huddle, `detect_huddle_change` never signals a start. -/
theorem detect_no_start_of_active (st : DetectorState) (score : ℚ)
    (hh : st.in_huddle = true) :
    (detect_huddle_change st score).1 = false := by
  simp [detect_huddle_change, hh]

/-- Outside a huddle, `detect_huddle_change` never signals an end. -/
theorem detect_no_end_of_idle (st : DetectorState) (score : ℚ)
    (hh : st.in_huddle = false) :
    (detect_huddle_change st score).2.1 = false := by
  simp [detect_huddle_change, hh]

/-- In every branch of the transition handling, at least one debounce
counter comes out 0. -/
theorem apply_transitions_counters (st : DetectorState) (a b : Bool) (s : ℚ) :
    (apply_transitions st a b s).consecutive_starts = 0 ∨
    (apply_transitions st a b s).consecutive_ends = 0 := by
  unfold apply_transitions; split_ifs <;> simp

/-- `push` keeps the history within the deque capacity 10. -/
theorem push_length_le (h : List ℚ) (s : ℚ) (hl : h.length ≤ 10) :
    (push h s).length ≤ 10 := by
  unfold push; split_ifs with hlt <;> simp <;> omega

/-- Any sequence of pushes starting within capacity stays within capacity. -/
theorem foldl_push_length (scores : List ℚ) :
    ∀ h : List ℚ, h.length ≤ 10 → (scores.foldl push h).length ≤ 10 := by
  induction scores with
  | nil => intro h hl; simpa using hl
  | cons a tl ih => intro h hl; exact ih _ (push_length_le h a hl)

/-- The code's trend agrees with the spec's description on every history:
below 6 samples the `older_avg` fallback makes the difference vanish. -/
theorem trend_of_eq_spec (h : List ℚ) : trend_of h = trend_spec h := by
  simp only [trend_of, trend_spec]
  split_ifs <;> first | rfl | simp | omega

/-- An unusable probe output (empty or not all digits) parses to 0. -/
theorem parse_count_unusable (s : String)
    (hs : unusable s) : parse_count s = 0 := by
  have hd : str_isdigit s = false := by
    rcases hs with h | h
    · subst h; rfl
    · exact h
  simp [parse_count, hd]

/-! ### Concrete states used by the claims -/

/-- An idle detector with baseline 10, as in the spec's start-debounce
example. -/
def idle_state : DetectorState :=
  ⟨10, false, [], 0, 0, 0⟩

/-- An active detector with `peakScore = 100`, `baseline = 10`, as in the
spec's end-condition example. -/
def active_state : DetectorState :=
  ⟨10, true, [], 100, 0, 0⟩

/-- The active example state after one confirming end signal. -/
def active_state_one_end : DetectorState :=
  ⟨10, true, [], 100, 0, 1⟩

/-- A fresh detector (baseline 0) for the replay counterexample. -/
def fresh_state : DetectorState :=
  ⟨0, false, [], 0, 0, 0⟩

/-- A snapshot with every indicator active. -/
def busy_snapshot : AudioState :=
  ⟨4, 1, 1, 1, 1, 1, 1⟩

/-- Probe outputs where every probe failed. -/
def dead_probes : ProbeOutputs :=
  ⟨none, none, none, none, none, none, none⟩

/-! ### The claims -/

/-- Claim C1: from phase IDLE, on every tick the start condition holds iff
`score ≥ max(50, baseline + 25)` and `trend ≥ 0`; the transition to ACTIVE
is confirmed exactly on the second consecutive satisfying tick (never on
the first; a non-satisfying tick resets the counter to 0), and upon
confirmation `peakScore` is set to the current score and both consecutive
counters are cleared to 0. The last two conjuncts are the spec's `[60,60]`
example at baseline 10. -/
theorem start_condition_debounce (st : DetectorState) (score : ℚ)
    (hh : st.in_huddle = false) :
    ((detect_huddle_change st score).1 = true ↔
      max 50 (st.baseline_score + 25) ≤ score ∧
      0 ≤ (detect_huddle_change st score).2.2.1) ∧
    ((detect_huddle_change st score).1 = true → st.consecutive_starts = 0 →
      (run_tick st score).in_huddle = false ∧
      (run_tick st score).consecutive_starts = 1 ∧
      (run_tick st score).consecutive_ends = 0) ∧
    ((detect_huddle_change st score).1 = true → 1 ≤ st.consecutive_starts →
      (run_tick st score).in_huddle = true ∧
      (run_tick st score).huddle_peak_score = score ∧
      (run_tick st score).consecutive_starts = 0 ∧
      (run_tick st score).consecutive_ends = 0) ∧
    ((detect_huddle_change st score).1 = false →
      (run_tick st score).consecutive_starts = 0) ∧
    (run_tick idle_state 60).in_huddle = false ∧
    (run_tick (run_tick idle_state 60) 60).in_huddle = true := by
  refine ⟨?_, ?_, ?_, ?_,
    by norm_num [run_tick, detect_huddle_change, apply_transitions,
      update_peak, idle_state, push, trend_of],
    by norm_num [run_tick, detect_huddle_change, apply_transitions,
      update_peak, idle_state, push, trend_of]⟩
  · simp [detect_huddle_change, hh, and_assoc]
  · intro hs hc0
    simp [run_tick, apply_transitions, update_peak, hs, hc0, hh]
  · intro hs hc1
    have h2 : 2 ≤ st.consecutive_starts + 1 := by omega
    simp [run_tick, apply_transitions, update_peak, hs, h2]
  · intro hs
    simp only [run_tick, apply_transitions, hs]
    rw [(update_peak_counters _ _).1]
    split_ifs <;> simp_all

/-- Claim C1 witness: the theorem applied to the idle example state at
score 60: the first satisfying tick does not confirm and leaves the start
counter at 1. -/
theorem start_condition_debounce_witness :
    idle_state.in_huddle = false ∧
    (run_tick idle_state 60).in_huddle = false ∧
    (run_tick idle_state 60).consecutive_starts = 1 := by
  have h := start_condition_debounce idle_state 60 rfl
  have hs : (detect_huddle_change idle_state 60).1 = true := by
    norm_num [detect_huddle_change, idle_state, push, trend_of]
  exact ⟨rfl, (h.2.1 hs rfl).1, (h.2.1 hs rfl).2.1⟩

/-- Claim C2: while in phase ACTIVE, on every tick the end condition holds
iff `score < 0.7 × peakScore`, or `score ≤ baseline + 10`, or
(`trend < −10` and `score < 50`); the transition to IDLE is confirmed
exactly on the second consecutive satisfying tick. The last two conjuncts
are the spec's examples at `peakScore = 100`, `baseline = 10`: `[69,69]`
confirms at the second tick and `[71,71]` never ends the session. -/
theorem end_condition_debounce (st : DetectorState) (score : ℚ)
    (hh : st.in_huddle = true) :
    ((detect_huddle_change st score).2.1 = true ↔
      score < st.huddle_peak_score * (7 / 10) ∨
      score ≤ st.baseline_score + 10 ∨
      ((detect_huddle_change st score).2.2.1 < -10 ∧ score < 50)) ∧
    ((detect_huddle_change st score).2.1 = true → st.consecutive_ends = 0 →
      (run_tick st score).in_huddle = true ∧
      (run_tick st score).consecutive_ends = 1) ∧
    ((detect_huddle_change st score).2.1 = true → 1 ≤ st.consecutive_ends →
      (run_tick st score).in_huddle = false) ∧
    ((run_tick active_state 69).in_huddle = true ∧
      (run_tick (run_tick active_state 69) 69).in_huddle = false) ∧
    ((run_tick active_state 71).in_huddle = true ∧
      (run_tick (run_tick active_state 71) 71).in_huddle = true) := by
  refine ⟨?_, ?_, ?_,
    by norm_num [run_tick, detect_huddle_change, apply_transitions,
      update_peak, active_state, push, trend_of],
    by norm_num [run_tick, detect_huddle_change, apply_transitions,
      update_peak, active_state, push, trend_of]⟩
  · simp [detect_huddle_change, hh, or_assoc]
  · intro hs hc0
    have h0 := detect_no_start_of_active st score hh
    simp only [run_tick, apply_transitions, h0, hs]
    rw [update_peak_in_huddle, (update_peak_counters _ _).2]
    simp [hc0, hh]
  · intro hs hc1
    have h0 := detect_no_start_of_active st score hh
    have h2 : 2 ≤ st.consecutive_ends + 1 := by omega
    simp only [run_tick, apply_transitions, h0, hs]
    rw [update_peak_in_huddle]
    simp [h2]

/-- Claim C2 witness: the theorem applied to the active example state at
score 69: the first confirming tick keeps the session active with the end
counter at 1. -/
theorem end_condition_debounce_witness :
    active_state.in_huddle = true ∧
    (run_tick active_state 69).in_huddle = true ∧
    (run_tick active_state 69).consecutive_ends = 1 := by
  have h := end_condition_debounce active_state 69 rfl
  have hs : (detect_huddle_change active_state 69).2.1 = true := by
    norm_num [detect_huddle_change, active_state, push, trend_of]
  exact ⟨rfl, (h.2.1 hs rfl).1, (h.2.1 hs rfl).2⟩

/-- Claim C3: a confirmed ACTIVE→IDLE transition whose confirming tick
observed score `s` leaves the baseline exactly `s` (re-anchored to that
single score) and the peak score 0. -/
theorem end_confirm_reanchors_baseline (st : DetectorState) (score : ℚ)
    (hh : st.in_huddle = true) (hc : 1 ≤ st.consecutive_ends)
    (he : (detect_huddle_change st score).2.1 = true) :
    (run_tick st score).baseline_score = score ∧
    (run_tick st score).huddle_peak_score = 0 ∧
    (run_tick st score).in_huddle = false := by
  have h0 := detect_no_start_of_active st score hh
  have h2 : 2 ≤ st.consecutive_ends + 1 := by omega
  simp only [run_tick, apply_transitions, h0, he]
  rw [update_peak_baseline, update_peak_in_huddle]
  have hp : ∀ t : DetectorState, t.in_huddle = false →
      (update_peak t score).huddle_peak_score = t.huddle_peak_score := by
    intro t ht; rw [update_peak_of_idle t score ht]
  simp [h2, hp]

/-- Claim C3 witness: the theorem applied to the active example state
carrying one prior end signal, at confirming score 69. -/
theorem end_confirm_reanchors_baseline_witness :
    (run_tick active_state_one_end 69).baseline_score = 69 ∧
    (run_tick active_state_one_end 69).huddle_peak_score = 0 ∧
    (run_tick active_state_one_end 69).in_huddle = false :=
  end_confirm_reanchors_baseline active_state_one_end 69 rfl
    (by norm_num [active_state_one_end])
    (by norm_num [detect_huddle_change, active_state_one_end, push, trend_of])

/-- Claim C4: for every indicator snapshot with non-negative values for the
seven indicator keys, the composite score is non-negative and equals the
sum of the contributions of the triggered rules, each contribution being
non-negative. -/
theorem score_nonneg_sum_of_contributions (state : AudioState)
    (h1 : 0 ≤ state.audio_fds) (h2 : 0 ≤ state.audio_units)
    (h3 : 0 ≤ state.hal_plugins) (h4 : 0 ≤ state.power_assertions)
    (h5 : 0 ≤ state.slack_assertions) (h6 : 0 ≤ state.ioregistry_clients)
    (h7 : 0 ≤ state.coreaudio_connections) :
    0 ≤ (calculate_score state).1 ∧
    (calculate_score state).1 = (score_contributions state).sum ∧
    ∀ c ∈ score_contributions state, 0 ≤ c := by
  refine ⟨?_, calculate_score_eq_sum state, score_contributions_nonneg state⟩
  rw [calculate_score_eq_sum]
  exact List.sum_nonneg (score_contributions_nonneg state)

/-- Claim C4 witness: the theorem applied to the all-indicators-active
snapshot. -/
theorem score_nonneg_sum_of_contributions_witness :
    0 ≤ (calculate_score busy_snapshot).1 ∧
    (calculate_score busy_snapshot).1 = (score_contributions busy_snapshot).sum ∧
    ∀ c ∈ score_contributions busy_snapshot, 0 ≤ c :=
  score_nonneg_sum_of_contributions busy_snapshot (by decide) (by decide)
    (by decide) (by decide) (by decide) (by decide) (by decide)

/-- Claim C5: for every sequence of scores pushed into the history, the
history stays within capacity 10 and the derived trend equals the mean of
the last 3 scores minus the mean of the 3 before them when at least 6
samples exist, and is exactly 0 whenever fewer than 6 samples exist
(including 3 to 5 samples). -/
theorem trend_window_spec (scores : List ℚ) :
    (scores.foldl push []).length ≤ 10 ∧
    trend_of (scores.foldl push []) = trend_spec (scores.foldl push []) ∧
    ∀ h : List ℚ, h.length < 6 → trend_of h = 0 := by
  refine ⟨foldl_push_length scores [] (by simp), trend_of_eq_spec _, ?_⟩
  intro h hl
  rw [trend_of_eq_spec, trend_spec, if_neg (by omega)]

/-- Claim C6: calibration draws exactly 3 indicator snapshots (`range 3`),
scores each, and sets the baseline to exactly the arithmetic mean of the
three scores. -/
theorem calibrate_arithmetic_mean (sample_fn : ℕ → AudioState) :
    calibrate sample_fn =
      (((calculate_score (sample_fn 0)).1 : ℚ) +
        ((calculate_score (sample_fn 1)).1 : ℚ) +
        ((calculate_score (sample_fn 2)).1 : ℚ)) / 3 := by
  simp [calibrate, List.range_succ]
  ring

/-- Claim C7 counterexample: the claim says a failed write is logged, but
the handler is a bare `pass`: on a concrete failing write the emitted log
is empty. -/
theorem write_failure_not_logged :
    (write_status_file (Except.error "disk full")).2 = [] := rfl

/-- Claim C7 (amended): when writing the status snapshot fails for any
reason, the failure is silently swallowed — nothing is logged — and
otherwise ignored: the publish operation never raises an exception to its
caller, so the monitoring loop continues unaffected. -/
theorem publish_swallows_write_failure (attempt : Except String Unit) :
    (write_status_file attempt).1 = Except.ok () ∧
    (write_status_file attempt).2 = [] := by
  cases attempt <;> exact ⟨rfl, rfl⟩

/-- Claim C8: every probe whose command output is unusable (probe failure,
empty output, or non-numeric output) resolves its indicator to 0 before
scoring; the snapshot handed to the scorer carries all seven indicator keys
(the `AudioState` fields, each populated), and the scorer totally evaluates
on every such snapshot to the sum of its non-negative contributions. -/
theorem indicators_fail_open (p : ProbeOutputs) :
    (unusable (run_command_safe p.audio_fds) →
      (get_audio_state p).audio_fds = 0) ∧
    (unusable (run_command_safe p.audio_units) →
      (get_audio_state p).audio_units = 0) ∧
    (unusable (run_command_safe p.hal_plugins) →
      (get_audio_state p).hal_plugins = 0) ∧
    (unusable (run_command_safe p.power_assertions) →
      (get_audio_state p).power_assertions = 0) ∧
    (unusable (run_command_safe p.slack_assertions) →
      (get_audio_state p).slack_assertions = 0) ∧
    (unusable (run_command_safe p.ioregistry_clients) →
      (get_audio_state p).ioregistry_clients = 0) ∧
    (unusable (run_command_safe p.coreaudio_connections) →
      (get_audio_state p).coreaudio_connections = 0) ∧
    run_command_safe none = "" ∧
    (calculate_score (get_audio_state p)).1 =
      (score_contributions (get_audio_state p)).sum ∧
    ∀ c ∈ score_contributions (get_audio_state p), 0 ≤ c := by
  refine ⟨?_, ?_, ?_, ?_, ?_, ?_, ?_, rfl, calculate_score_eq_sum _,
    score_contributions_nonneg _⟩ <;>
    exact fun h => parse_count_unusable _ h

/-- Claim C9 counterexample: replaying the same tick inputs is not
idempotent — from a fresh idle state, the tick at score 60 leaves the peak
at 0, but replaying the same score advances the debounce counter to the
confirmation threshold and sets the peak to 60. -/
theorem replay_confirms_and_changes_peak :
    (run_tick (run_tick fresh_state 60) 60).huddle_peak_score ≠
      (run_tick fresh_state 60).huddle_peak_score ∧
    (run_tick (run_tick fresh_state 60) 60).in_huddle ≠
      (run_tick fresh_state 60).in_huddle := by
  refine ⟨?_, ?_⟩ <;>
    norm_num [run_tick, detect_huddle_change, apply_transitions,
      update_peak, fresh_state, push, trend_of]

/-- Claim C9 (amended): a full tick replay is not idempotent (a replayed
satisfying tick advances the debounce counter again and can confirm a
transition, changing the peak); what does hold is idempotence of the peak
update: re-applying the peak-update step with the tick's score to the state
the tick produced leaves the state — in particular the peak — unchanged. -/
theorem replay_peak_update_idempotent (st : DetectorState) (score : ℚ) :
    update_peak (run_tick st score) score = run_tick st score := by
  simp only [run_tick]
  exact update_peak_idem _ _

/-- Claim C10: after every tick of the main loop, at most one of the two
debounce counters is nonzero: every branch of the transition handling that
increments one counter resets the other, and the remaining branch resets
both. -/
theorem debounce_counters_mutually_exclusive (st : DetectorState) (score : ℚ) :
    (run_tick st score).consecutive_starts = 0 ∨
    (run_tick st score).consecutive_ends = 0 := by
  simp only [run_tick]
  rw [(update_peak_counters _ _).1, (update_peak_counters _ _).2]
  exact apply_transitions_counters _ _ _ _

end HuddleDetector
